import Mathlib

/-!
Verification of the OVN rule analyzer (egress-IP SNAT/LRP consistency and
drift-detection engine) against its natural-language specification.

The definitions below are a shallow embedding of
`src/tools/egressip/ovn_rule_analyzer.py` (class `OVNRuleAnalyzer`) and of
`src/tools/egressip/metrics_collector.py` (`_simple_trend`).  Python strings
are Lean `String`s, Python lists are Lean `List`s, Python `set`s of strings
are `Finset String`, Python floats arising from ratios of integers are exact
rationals `ℚ`, and Python `int` division `//` on non-negative operands is
`Nat` division.  The process-spawning command executor is modelled as a
function producing `Option String` per invocation (`none` models a transport
or access failure, i.e. a non-zero exit code or a raised exception; `some out`
models captured stdout).  Python's built-in `hash` composed with `str` is an
arbitrary deterministic function, modelled as an explicit parameter
`hashFn : List String → Int`.
-/

/-! ### Python string primitives -/

/-- Lower-casing of a string, character by character (Python `str.lower` on
the ASCII command output handled here). -/
def strLower (s : String) : String := String.mk (s.data.map Char.toLower)

/-- Python `str.strip()`: remove leading and trailing whitespace. -/
def pyStrip (s : String) : String :=
  String.mk (((s.data.dropWhile Char.isWhitespace).reverse.dropWhile Char.isWhitespace).reverse)

/-- Worker for `pySplit`, with fuel bounding the recursion depth (the fuel is
the length of the character list, which strictly bounds the number of steps). -/
def pySplitGo : Nat → List Char → List String
  | 0, _ => []
  | _, [] => []
  | fuel + 1, c :: cs =>
    if c.isWhitespace then pySplitGo fuel cs
    else
      String.mk ((c :: cs).takeWhile (fun d => ¬ d.isWhitespace)) ::
        pySplitGo fuel (cs.dropWhile (fun d => ¬ d.isWhitespace))

/-- Python `str.split()` with no arguments: split on runs of whitespace,
discarding empty tokens. -/
def pySplit (s : String) : List String := pySplitGo s.data.length s.data

/-- Python `str.split(None, 2)`: at most two splits on whitespace runs; the
third element, when present, is the remainder of the string re-joined
(everything after the second token's trailing whitespace). -/
def pySplit2 (s : String) : List String :=
  let cs1 := s.data.dropWhile Char.isWhitespace
  if cs1 = [] then []
  else
    let t1 := cs1.takeWhile (fun d => ¬ d.isWhitespace)
    let cs2 := (cs1.dropWhile (fun d => ¬ d.isWhitespace)).dropWhile Char.isWhitespace
    if cs2 = [] then [String.mk t1]
    else
      let t2 := cs2.takeWhile (fun d => ¬ d.isWhitespace)
      let cs3 := (cs2.dropWhile (fun d => ¬ d.isWhitespace)).dropWhile Char.isWhitespace
      if cs3 = [] then [String.mk t1, String.mk t2]
      else [String.mk t1, String.mk t2, String.mk cs3]

/-- Python `pat in s` on character lists (substring containment). -/
def containsSub (pat : List Char) : List Char → Bool
  | [] => pat.isEmpty
  | c :: cs => pat.isPrefixOf (c :: cs) || containsSub pat cs

/-- Python `s.split('\n')`: split on every newline, keeping empty pieces. -/
def splitNlGo : List Char → List Char → List String
  | acc, [] => [String.mk acc.reverse]
  | acc, d :: ds =>
    if d = '\n' then String.mk acc.reverse :: splitNlGo [] ds
    else splitNlGo (d :: acc) ds

/-- All lines of a command's stdout, as in `stdout.decode().split('\n')`. -/
def splitLines (s : String) : List String := splitNlGo [] s.data

/-! ### Rule records

A parsed-SNAT dictionary in the source has keys `type`, `external_ip`,
`logical_ip`, `logical_port`, `raw_rule`, `parsed_successfully`; the
unparsed variant omits the three field keys, which `dict.get` then reads as
absent/falsy — modelled here by the empty string. -/

structure SnatRule where
  type : String
  external_ip : String
  logical_ip : String
  logical_port : String
  raw_rule : String
  parsed_successfully : Bool
deriving DecidableEq, Repr

/-- An LRP rule dictionary: keys `type`, `priority`, `match`, `action`,
`raw_rule`, `parsed_successfully` (the Python key `match` is a Lean keyword,
rendered `matchField`). -/
structure LrpRule where
  type : String
  priority : String
  matchField : String
  action : String
  raw_rule : String
  parsed_successfully : Bool
deriving DecidableEq, Repr

/-- `OVNRuleAnalyzer._parse_snat_rule`: tokenize the stripped line; if there
are at least four tokens and the first lower-cases to `snat`, produce a fully
parsed record from tokens 1..3; otherwise an attempted record with
`parsed_successfully = false` whose `raw_rule` is the input line unchanged. -/
def parse_snat_rule (rule_line : String) : SnatRule :=
  let parts := pySplit (pyStrip rule_line)
  if 4 ≤ parts.length ∧ strLower (parts.getD 0 "") = "snat" then
    { type := "snat"
      external_ip := parts.getD 1 ""
      logical_ip := parts.getD 2 ""
      logical_port := parts.getD 3 ""
      raw_rule := rule_line
      parsed_successfully := true }
  else
    { type := "snat", external_ip := "", logical_ip := "", logical_port := ""
      raw_rule := rule_line, parsed_successfully := false }

/-- `OVNRuleAnalyzer._parse_lrp_rule`: split the stripped line into at most
three chunks (`priority match action`, the action keeping its internal
whitespace); fewer than three chunks yields an attempted record. -/
def parse_lrp_rule (rule_line : String) : LrpRule :=
  let parts := pySplit2 (pyStrip rule_line)
  if 3 ≤ parts.length then
    { type := "lrp"
      priority := parts.getD 0 ""
      matchField := parts.getD 1 ""
      action := parts.getD 2 ""
      raw_rule := rule_line
      parsed_successfully := true }
  else
    { type := "lrp", priority := "", matchField := "", action := ""
      raw_rule := rule_line, parsed_successfully := false }

/-- The line-selection and parsing loop of `_get_snat_rules`: strip each
stdout line, keep exactly those containing the substring `snat`
case-insensitively, and parse each kept line (the parser always returns a
truthy record, so no kept line is ever dropped). -/
def parse_snat_output (stdout : String) : List SnatRule :=
  (splitLines stdout).filterMap fun l =>
    let line := pyStrip l
    if containsSub "snat".data (strLower line).data then some (parse_snat_rule line)
    else none

/-- The line-selection and parsing loop of `_get_lrp_rules`: keep non-blank
stripped lines not beginning with the header token `Routing`. -/
def parse_lrp_output (stdout : String) : List LrpRule :=
  (splitLines stdout).filterMap fun l =>
    let line := pyStrip l
    if line ≠ "" ∧ ¬ ("Routing".data.isPrefixOf line.data) then some (parse_lrp_rule line)
    else none

/-- `_get_snat_rules` with the command executor abstracted: a failed
execution (non-zero exit or raised exception) yields the empty rule list. -/
def get_snat_rules (execResult : Option String) : List SnatRule :=
  match execResult with
  | none => []
  | some out => parse_snat_output out

/-- `_get_lrp_rules` with the command executor abstracted. -/
def get_lrp_rules (execResult : Option String) : List LrpRule :=
  match execResult with
  | none => []
  | some out => parse_lrp_output out

/-! ### IPv4-literal extraction

Embedding of `re.findall(r'\b\d{1,3}\.\d{1,3}\.\d{1,3}\.\d{1,3}\b', text)`
used by `_check_rule_consistency`.  A word character is alphanumeric or an
underscore.  Because each greedy `\d{1,3}` group is followed either by a
literal dot or by a word boundary, backtracking can only succeed when the
group consumes the entire digit run at its position and that run is 1–3 long;
the deterministic functions below implement exactly that, and the scanner
resumes after the end of each match as `findall` does. -/

/-- A regex word character (`\w`), for `\b` boundary tests. -/
def isWordChar (c : Char) : Bool := c.isAlphanum || c = '_'

/-- Length of the leading run of decimal digits. -/
def digitRun : List Char → Nat
  | [] => 0
  | c :: cs => if c.isDigit then digitRun cs + 1 else 0

/-- Match `\d{1,3}\.` at the head of the list, returning the remainder. -/
def matchGroupDot (cs : List Char) : Option (List Char) :=
  let r := digitRun cs
  if 1 ≤ r ∧ r ≤ 3 then
    match cs.drop r with
    | c :: rest => if c = '.' then some rest else none
    | [] => none
  else none

/-- Match the final `\d{1,3}\b` at the head of the list. -/
def matchLastGroup (cs : List Char) : Option (List Char) :=
  let r := digitRun cs
  if 1 ≤ r ∧ r ≤ 3 then
    match cs.drop r with
    | [] => some []
    | c :: rest => if isWordChar c then none else some (c :: rest)
  else none

/-- Try to match the full IPv4 pattern at the current position.  `prevWord`
records whether the preceding character is a word character (the leading `\b`
fails exactly when it is, since the first matched character is a digit).
Returns the matched text and the remainder after the match. -/
def matchIPAt (prevWord : Bool) (cs : List Char) : Option (String × List Char) :=
  if prevWord then none
  else
    match matchGroupDot cs with
    | none => none
    | some r1 =>
      match matchGroupDot r1 with
      | none => none
      | some r2 =>
        match matchGroupDot r2 with
        | none => none
        | some r3 =>
          match matchLastGroup r3 with
          | none => none
          | some rest => some (String.mk (cs.take (cs.length - rest.length)), rest)

/-- Left-to-right non-overlapping scan of `findall`, fuelled by the input
length (every step consumes at least one character). -/
def findIPsGo : Nat → Bool → List Char → List String
  | 0, _, _ => []
  | _, _, [] => []
  | fuel + 1, prevWord, c :: cs =>
    match matchIPAt prevWord (c :: cs) with
    | some (matched, rest) => matched :: findIPsGo fuel true rest
    | none => findIPsGo fuel (isWordChar c) cs

/-- All IPv4-literal tokens of a text, in order of occurrence. -/
def extractIPs (text : String) : List String := findIPsGo text.data.length false text.data

/-! ### Consistency validator (`_check_rule_consistency`) -/

/-- The set of external IPs of successfully parsed SNAT rules with a truthy
(non-empty) `external_ip`, as accumulated by both `_check_rule_consistency`
and `_validate_rules_against_egressips`. -/
def snatExternalIPs (snat_rules : List SnatRule) : Finset String :=
  ((snat_rules.filter fun r => r.parsed_successfully && r.external_ip != "").map
    (fun r => r.external_ip)).toFinset

/-- The set of IPv4 literals appearing in the concatenated `match`/`action`
text of successfully parsed LRP rules. -/
def lrpIPReferences (lrp_rules : List LrpRule) : Finset String :=
  ((lrp_rules.filter fun r => r.parsed_successfully).flatMap
    (fun r => extractIPs (r.matchField ++ " " ++ r.action))).toFinset

/-- The dictionary returned by `_check_rule_consistency`; the three `details`
entries are flattened into fields. -/
structure ConsistencyResult where
  snat_lrp_correlation : String
  issues_found : List String
  consistency_score : ℚ
  detail_snat_external_ips : Finset String
  detail_lrp_ip_references : Finset String
  detail_correlated_ips : Finset String
deriving DecidableEq

/-- `_check_rule_consistency`: when both derived sets are non-empty, the
score is `|snat ∩ lrp| / |snat|` and is classified against the 0.8/0.5
thresholds, `poor` appending an issue string; otherwise the result keeps its
initial `unknown` label, score `0.0` and empty issue list. -/
def check_rule_consistency (snat_rules : List SnatRule) (lrp_rules : List LrpRule) :
    ConsistencyResult :=
  let se := snatExternalIPs snat_rules
  let li := lrpIPReferences lrp_rules
  let corr := se ∩ li
  if se.Nonempty ∧ li.Nonempty then
    let score : ℚ := (corr.card : ℚ) / (se.card : ℚ)
    if score > 8/10 then ⟨"good", [], score, se, li, corr⟩
    else if score > 5/10 then ⟨"moderate", [], score, se, li, corr⟩
    else ⟨"poor", ["Low correlation between SNAT and LRP rules"], score, se, li, corr⟩
  else ⟨"unknown", [], 0, se, li, corr⟩

/-! ### Desired-state validation (`_validate_rules_against_egressips`) -/

/-- The EgressIP context consumed by the validator: availability flag, the
collected assigned IPs, and the error message carried when unavailable. -/
structure EgressIPContext where
  available : Bool
  total_assigned_ips : List String
  error : Option String
deriving DecidableEq

/-- The dictionary returned by `_validate_rules_against_egressips`, with the
`validation_summary` entries flattened into fields. -/
structure ValidationResult where
  validation_possible : Bool
  missing_snat_rules : Finset String
  unexpected_snat_rules : Finset String
  total_assigned_egressips : Nat
  total_snat_external_ips : Nat
  missing_rules_count : Nat
  unexpected_rules_count : Nat
  validation_passed : Bool
  error : Option String
deriving DecidableEq

/-- `_validate_rules_against_egressips` (the `lrp_rules` parameter is unused
by the source body, kept for signature fidelity): missing rules are the
assigned IPs without a SNAT external IP, unexpected rules the converse, both
reported as explicit sets. -/
def validate_rules_against_egressips (snat_rules : List SnatRule) (lrp_rules : List LrpRule)
    (egressip_context : EgressIPContext) : ValidationResult :=
  if egressip_context.available then
    let assigned_ips := egressip_context.total_assigned_ips.toFinset
    let se := snatExternalIPs snat_rules
    let missing := assigned_ips \ se
    let unexpected := se \ assigned_ips
    { validation_possible := true
      missing_snat_rules := missing
      unexpected_snat_rules := unexpected
      total_assigned_egressips := assigned_ips.card
      total_snat_external_ips := se.card
      missing_rules_count := missing.card
      unexpected_rules_count := unexpected.card
      validation_passed := missing.card == 0 && unexpected.card == 0
      error := none }
  else
    { validation_possible := false
      missing_snat_rules := ∅
      unexpected_snat_rules := ∅
      total_assigned_egressips := 0
      total_snat_external_ips := 0
      missing_rules_count := 0
      unexpected_rules_count := 0
      validation_passed := false
      error := some (egressip_context.error.getD "EgressIP context not available") }

/-! ### Trend classification (`metrics_collector._simple_trend`) -/

/-- First-half average: `sum(values[:mid]) / mid if mid > 0 else 0` with
`mid = len(values) // 2`. -/
def first_half_avg (values : List ℚ) : ℚ :=
  let mid := values.length / 2
  if 0 < mid then (values.take mid).sum / (mid : ℚ) else 0

/-- Second-half average: `sum(values[mid:]) / (len(values) - mid)`. -/
def second_half_avg (values : List ℚ) : ℚ :=
  let mid := values.length / 2
  (values.drop mid).sum / ((values.length - mid : Nat) : ℚ)

/-- The percent change `(second - first) / first * 100`, guarded in the
source by `if first_half_avg > 0 else 0`. -/
def diff_percent (values : List ℚ) : ℚ :=
  if 0 < first_half_avg values then
    (second_half_avg values - first_half_avg values) / first_half_avg values * 100
  else 0

/-- `_simple_trend`: fewer than two points is `insufficient_data`; otherwise
classify the percent change against the ±10% thresholds. -/
def simple_trend (values : List ℚ) : String :=
  if values.length < 2 then "insufficient_data"
  else if diff_percent values > 10 then "increasing"
  else if diff_percent values < -10 then "decreasing"
  else "stable"

/-- The trend function as the specification words it: the percent change is
computed whenever the first-half average is non-zero (`firstHalfAvg ≠ 0`),
not only when it is positive.  Written only to compare with `simple_trend`,
which follows the source. -/
def simple_trend_as_specified (values : List ℚ) : String :=
  if values.length < 2 then "insufficient_data"
  else
    let change :=
      if first_half_avg values ≠ 0 then
        (second_half_avg values - first_half_avg values) / first_half_avg values * 100
      else 0
    if change > 10 then "increasing"
    else if change < -10 then "decreasing"
    else "stable"

/-! ### Snapshots and drift monitoring (`monitor_rule_changes`) -/

/-- Sorting of the raw-rule texts, `sorted([...])` in
`_take_rule_snapshot` (ascending lexicographic order on strings). -/
def sortedStrs (l : List String) : List String := List.insertionSort (· ≤ ·) l

/-- The SNAT fingerprint of `_take_rule_snapshot`:
`hash(str(sorted([r.get("raw_rule", "") for r in snat_rules])))`, with
`hash ∘ str` abstracted as the deterministic `hashFn`. -/
def snat_rules_hash (hashFn : List String → Int) (snat_rules : List SnatRule) : Int :=
  hashFn (sortedStrs (snat_rules.map fun r => r.raw_rule))

/-- The LRP fingerprint of `_take_rule_snapshot`. -/
def lrp_rules_hash (hashFn : List String → Int) (lrp_rules : List LrpRule) : Int :=
  hashFn (sortedStrs (lrp_rules.map fun r => r.raw_rule))

/-- One monitoring snapshot (the wall-clock timestamp is omitted: no claim
depends on its value). -/
structure RuleSnapshot where
  snat_count : Nat
  lrp_count : Nat
  snat_hash : Int
  lrp_hash : Int
deriving DecidableEq, Repr

/-- `_take_rule_snapshot`, with the two per-kind executor outcomes for this
tick supplied as `execResult` (stdout of the SNAT listing and of the LRP
listing, `none` on transport failure). -/
def take_rule_snapshot (hashFn : List String → Int)
    (execResult : Option String × Option String) : RuleSnapshot :=
  let snat_rules := get_snat_rules execResult.1
  let lrp_rules := get_lrp_rules execResult.2
  { snat_count := snat_rules.length
    lrp_count := lrp_rules.length
    snat_hash := snat_rules_hash hashFn snat_rules
    lrp_hash := lrp_rules_hash hashFn lrp_rules }

/-- The per-pair change dictionary built inside `_analyze_rule_changes`:
count-change entries carry the before/after values, content-change entries
record that the fingerprint differs. -/
structure SnapshotChanges where
  snat_count_change : Option (Nat × Nat)
  lrp_count_change : Option (Nat × Nat)
  snat_content_change : Bool
  lrp_content_change : Bool
deriving DecidableEq, Repr

/-- Diff of two temporally adjacent snapshots. -/
def snapshot_changes (prev curr : RuleSnapshot) : SnapshotChanges :=
  { snat_count_change :=
      if prev.snat_count ≠ curr.snat_count then some (prev.snat_count, curr.snat_count) else none
    lrp_count_change :=
      if prev.lrp_count ≠ curr.lrp_count then some (prev.lrp_count, curr.lrp_count) else none
    snat_content_change := prev.snat_hash != curr.snat_hash
    lrp_content_change := prev.lrp_hash != curr.lrp_hash }

/-- Whether the change dictionary is non-empty (`if snapshot_changes:`). -/
def SnapshotChanges.isEvent (c : SnapshotChanges) : Bool :=
  c.snat_count_change.isSome || c.lrp_count_change.isSome ||
    c.snat_content_change || c.lrp_content_change

/-- The dictionary returned by `_analyze_rule_changes`.  In the
fewer-than-two-snapshots branch the source returns only
`changes_detected = False` with a reason; `total_change_events` is modelled
as 0 there (the stability assessor never reads it on that path). -/
structure ChangeAnalysis where
  changes_detected : Bool
  total_change_events : Nat
  changes : List SnapshotChanges
deriving DecidableEq, Repr

/-- `_analyze_rule_changes`: diff each adjacent snapshot pair, keep the
non-empty diffs as change events. -/
def analyze_rule_changes (snapshots : List RuleSnapshot) : ChangeAnalysis :=
  if snapshots.length < 2 then ⟨false, 0, []⟩
  else
    let changes :=
      ((snapshots.zip snapshots.tail).map fun pc => snapshot_changes pc.1 pc.2).filter
        (fun c => c.isEvent)
    ⟨decide (0 < changes.length), changes.length, changes⟩

/-- The stability dictionary of `_assess_rule_stability`. -/
structure StabilityAssessment where
  stability : String
  assessment : String
  confidence : String
deriving DecidableEq, Repr

/-- `_assess_rule_stability`: no change events yields `stable`/`high`, one or
two yields `mostly_stable`/`medium`, three or more yields `unstable`/`high`. -/
def assess_rule_stability (change_analysis : ChangeAnalysis) : StabilityAssessment :=
  if ¬ change_analysis.changes_detected then
    ⟨"stable", "No rule changes detected during monitoring period", "high"⟩
  else
    let change_count := change_analysis.total_change_events
    if change_count ≤ 2 then
      ⟨"mostly_stable", "Minor changes detected (" ++ toString change_count ++ " events)",
        "medium"⟩
    else
      ⟨"unstable", "Frequent rule changes detected (" ++ toString change_count ++ " events)",
        "high"⟩

/-- `check_interval = min(30, duration_seconds // 10)` from
`monitor_rule_changes`. -/
def check_interval (duration_seconds : Nat) : Nat := min 30 (duration_seconds / 10)

/-- The dictionary returned by `monitor_rule_changes`: the success dictionary
carries the snapshot count, change analysis, stability assessment and the
detailed snapshots; the error dictionary (built by the `except` handler)
carries only the stringified exception — in particular no snapshots. -/
inductive MonitorResult where
  | success (snapshots_taken : Nat) (change_analysis : ChangeAnalysis)
      (stability_assessment : StabilityAssessment) (detailed_snapshots : List RuleSnapshot)
  | failure (error : String)
deriving DecidableEq, Repr

/-- The `status` entry of the returned dictionary. -/
def MonitorResult.status : MonitorResult → String
  | .success _ _ _ _ => "success"
  | .failure _ => "error"

/-- The `error` entry (absent, i.e. `none`, in the success dictionary). -/
def MonitorResult.errorMsg : MonitorResult → Option String
  | .success _ _ _ _ => none
  | .failure e => some e

/-- The `detailed_snapshots` entry (absent in the error dictionary). -/
def MonitorResult.detailed : MonitorResult → List RuleSnapshot
  | .success _ _ _ snaps => snaps
  | .failure _ => []

/-- `monitor_rule_changes`, with the per-tick executor outcomes supplied by
`execAt` (tick 0 is the initial snapshot, tick `i + 1` the `i`-th loop
iteration).  The second component counts the snapshot attempts actually
executed.  `check_interval = 0` makes the Python source raise
`ZeroDivisionError` at `duration_seconds // check_interval`; the `except`
handler turns it into the error dictionary, after the one baseline snapshot
attempt and before any loop iteration. -/
def monitor_rule_changes (hashFn : List String → Int)
    (execAt : Nat → Option String × Option String) (duration_seconds : Nat) :
    MonitorResult × Nat :=
  let initial_snapshot := take_rule_snapshot hashFn (execAt 0)
  let interval := check_interval duration_seconds
  if interval = 0 then
    (.failure "integer division or modulo by zero", 1)
  else
    let checks_remaining := duration_seconds / interval
    let snapshots :=
      initial_snapshot ::
        (List.range checks_remaining).map fun i => take_rule_snapshot hashFn (execAt (i + 1))
    let change_analysis := analyze_rule_changes snapshots
    (.success snapshots.length change_analysis (assess_rule_stability change_analysis) snapshots,
      1 + checks_remaining)

/-! ### Concrete inputs used by witnesses and counterexamples -/

/-- A well-formed SNAT listing line. -/
def goodSnatLine : String := "snat 10.0.1.5 10.128.0.10 k8s-node1"

/-- A line containing `snat` that does not match the token pattern. -/
def badSnatLine : String := "snat-errors: 3"

/-- Concrete parsed SNAT rules whose external IPs are `{B, C, D}` for the
set-difference example. -/
def snatRulesBCD : List SnatRule :=
  [⟨"snat", "10.0.0.2", "10.128.0.1", "p1", "snat 10.0.0.2 10.128.0.1 p1", true⟩,
   ⟨"snat", "10.0.0.3", "10.128.0.2", "p2", "snat 10.0.0.3 10.128.0.2 p2", true⟩,
   ⟨"snat", "10.0.0.4", "10.128.0.3", "p3", "snat 10.0.0.4 10.128.0.3 p3", true⟩]

/-- An EgressIP context assigning `{A, B, C}`. -/
def ctxABC : EgressIPContext := ⟨true, ["10.0.0.1", "10.0.0.2", "10.0.0.3"], none⟩

/-- One parsed SNAT rule with external IP `10.0.1.5`. -/
def snatRuleA : SnatRule := ⟨"snat", "10.0.1.5", "10.128.0.10", "p1", goodSnatLine, true⟩

/-- One parsed LRP rule whose match/action text references `10.0.1.5`. -/
def lrpRuleA : LrpRule :=
  ⟨"lrp", "100", "ip4.src==10.128.0.10", "reroute 10.0.1.5", "raw lrp", true⟩

/-- An executor that answers the baseline tick and then fails outright
(transport failure) for every later tick. -/
def failingAfterBaseline : Nat → Option String × Option String :=
  fun i => if i = 0 then (some (goodSnatLine ++ "\n"), some "") else (none, none)

/-! ### Helper lemmas -/

/-- Sorting a list of strings is invariant under permutation of the input. -/
theorem sortedStrs_perm_eq (l l' : List String) (h : l.Perm l') : sortedStrs l = sortedStrs l' :=
  List.eq_of_perm_of_sorted
    ((List.perm_insertionSort _ l).trans (h.trans (List.perm_insertionSort _ l').symm))
    (List.sorted_insertionSort _ l) (List.sorted_insertionSort _ l')

/-- For durations of at least ten seconds the computed check interval is
positive (so the Python integer division cannot raise). -/
theorem check_interval_pos (d : Nat) (h : 10 ≤ d) : 0 < check_interval d :=
  lt_min (by norm_num) (Nat.div_pos h (by norm_num))

/-- In the output of `analyze_rule_changes` the `changes_detected` flag holds
exactly when the event count is positive. -/
theorem changes_detected_iff_events_pos (snapshots : List RuleSnapshot) :
    (analyze_rule_changes snapshots).changes_detected = true ↔
      0 < (analyze_rule_changes snapshots).total_change_events := by
  unfold analyze_rule_changes
  by_cases h : snapshots.length < 2 <;> simp [h]

/-! ### Claim theorems -/

/-- Claim C1, counterexample: the spec states the sampling cadence is
`max(30, duration/10)`, but at `duration = 600` the code's interval
`min(30, 600 // 10)` is `30` while `max(30, 600 / 10)` is `60`. -/
theorem check_interval_not_max :
    check_interval 600 = 30 ∧ max 30 (600 / 10) = 60 ∧ (30 : Nat) ≠ 60 := by decide

/-- Claim C1, amended: the Drift Monitor's cadence is `min(30, duration/10)`
(not `max`); for every duration of at least 10 seconds this still attempts at
least 10 samples beyond the baseline — the loop runs
`duration // interval ≥ 10` times, so `1 + duration // interval` snapshot
attempts are executed in total. -/
theorem monitor_cadence_min_amended (hashFn : List String → Int)
    (execAt : Nat → Option String × Option String) (d : Nat) (h : 10 ≤ d) :
    check_interval d = min 30 (d / 10) ∧
    10 ≤ d / check_interval d ∧
    (monitor_rule_changes hashFn execAt d).2 = 1 + d / check_interval d := by
  have hpos := check_interval_pos d h
  refine ⟨rfl, ?_, ?_⟩
  · have hle : check_interval d ≤ d / 10 := min_le_right _ _
    have h10 : 10 * check_interval d ≤ d :=
      calc 10 * check_interval d ≤ 10 * (d / 10) := Nat.mul_le_mul_left _ hle
        _ = d / 10 * 10 := Nat.mul_comm _ _
        _ ≤ d := Nat.div_mul_le_self d 10
    exact (Nat.le_div_iff_mul_le hpos).mpr h10
  · have hne : check_interval d ≠ 0 := Nat.pos_iff_ne_zero.mp hpos
    simp [monitor_rule_changes, hne]

/-- Claim C1, amended, witness at `duration = 300`. -/
theorem monitor_cadence_min_amended_witness :
    10 ≤ 300 ∧
    (check_interval 300 = min 30 (300 / 10) ∧
     10 ≤ 300 / check_interval 300 ∧
     (monitor_rule_changes (fun _ => 0) (fun _ => (none, none)) 300).2 =
       1 + 300 / check_interval 300) :=
  ⟨by decide, monitor_cadence_min_amended (fun _ => 0) (fun _ => (none, none)) 300 (by decide)⟩

/-- Claim C3, counterexample: with an executor that answers the baseline tick
and then fails outright for every later tick (a transport failure, not a
parse failure), a 300-second session does not abort at all: it returns the
success dictionary, carries no abort reason, and contains snapshots for every
tick including the failed ones. -/
theorem monitor_executor_failure_no_abort :
    (monitor_rule_changes (fun _ => 0) failingAfterBaseline 300).1.status = "success" ∧
    (monitor_rule_changes (fun _ => 0) failingAfterBaseline 300).1.errorMsg = none ∧
    (monitor_rule_changes (fun _ => 0) failingAfterBaseline 300).1.detailed.length = 11 :=
  ⟨by decide, by decide, by decide⟩

/-- Claim C3, amended: an outright failure of the command executor never
aborts a monitoring session, because the rule getters swallow it and return
empty rule lists; for every duration of at least 10 seconds and every
executor behaviour the session completes with status `success` and returns a
snapshot for the baseline and for each of the `duration // interval` loop
ticks.  (Partial data is discarded only on the separate zero-interval
exception path of sub-10-second durations, settled under claim C10.) -/
theorem monitor_success_keeps_all_snapshots (hashFn : List String → Int)
    (execAt : Nat → Option String × Option String) (d : Nat) (h : 10 ≤ d) :
    (monitor_rule_changes hashFn execAt d).1.status = "success" ∧
    (monitor_rule_changes hashFn execAt d).1.detailed.length = 1 + d / check_interval d := by
  have hne : check_interval d ≠ 0 := Nat.pos_iff_ne_zero.mp (check_interval_pos d h)
  refine ⟨?_, ?_⟩
  · simp [monitor_rule_changes, hne, MonitorResult.status]
  · simp [monitor_rule_changes, hne, MonitorResult.detailed]
    omega

/-- Claim C3, amended, witness: a fully failing executor over a 30-second
session still yields a success result with all four snapshots. -/
theorem monitor_success_keeps_all_snapshots_witness :
    10 ≤ 30 ∧
    ((monitor_rule_changes (fun _ => 0) (fun _ => (none, none)) 30).1.status = "success" ∧
     (monitor_rule_changes (fun _ => 0) (fun _ => (none, none)) 30).1.detailed.length =
       1 + 30 / check_interval 30) :=
  ⟨by decide, monitor_success_keeps_all_snapshots (fun _ => 0) (fun _ => (none, none)) 30
    (by decide)⟩

/-- Claim C10: for every duration strictly between 0 and 10 the computed
check interval `min(30, duration // 10)` is 0, the subsequent division
raises `ZeroDivisionError` (surfaced as the error dictionary), and only the
single baseline snapshot attempt is executed. -/
theorem monitor_short_duration_error (hashFn : List String → Int)
    (execAt : Nat → Option String × Option String) (d : Nat) (h1 : 0 < d) (h2 : d < 10) :
    check_interval d = 0 ∧
    (monitor_rule_changes hashFn execAt d).1.status = "error" ∧
    (monitor_rule_changes hashFn execAt d).1.errorMsg =
      some "integer division or modulo by zero" ∧
    (monitor_rule_changes hashFn execAt d).2 = 1 := by
  have hci : check_interval d = 0 := by
    have : d / 10 = 0 := Nat.div_eq_of_lt h2
    simp [check_interval, this]
  refine ⟨hci, ?_, ?_, ?_⟩ <;>
    simp [monitor_rule_changes, hci, MonitorResult.status, MonitorResult.errorMsg]

/-- Claim C10, witness at `duration = 5`. -/
theorem monitor_short_duration_error_witness :
    0 < 5 ∧ 5 < 10 ∧
    (check_interval 5 = 0 ∧
     (monitor_rule_changes (fun _ => 0) (fun _ => (none, none)) 5).1.status = "error" ∧
     (monitor_rule_changes (fun _ => 0) (fun _ => (none, none)) 5).1.errorMsg =
       some "integer division or modulo by zero" ∧
     (monitor_rule_changes (fun _ => 0) (fun _ => (none, none)) 5).2 = 1) :=
  ⟨by decide, by decide,
    monitor_short_duration_error (fun _ => 0) (fun _ => (none, none)) 5 (by decide) (by decide)⟩

/-- Claim C8: the snapshot fingerprint of each rule kind depends only on the
multiset of the records' raw text — permuting the record order never changes
the fingerprint, for any hash function. -/
theorem fingerprint_perm_invariant (hashFn : List String → Int)
    (s s' : List SnatRule) (l l' : List LrpRule) (hs : s.Perm s') (hl : l.Perm l') :
    snat_rules_hash hashFn s = snat_rules_hash hashFn s' ∧
    lrp_rules_hash hashFn l = lrp_rules_hash hashFn l' := by
  constructor
  · unfold snat_rules_hash
    exact congrArg hashFn (sortedStrs_perm_eq _ _ (hs.map _))
  · unfold lrp_rules_hash
    exact congrArg hashFn (sortedStrs_perm_eq _ _ (hl.map _))

/-- Claim C8, witness: swapping two concrete records of each kind. -/
theorem fingerprint_perm_invariant_witness :
    ([snatRuleA, ⟨"snat", "", "", "", badSnatLine, false⟩] : List SnatRule).Perm
      [⟨"snat", "", "", "", badSnatLine, false⟩, snatRuleA] ∧
    ([lrpRuleA] : List LrpRule).Perm [lrpRuleA] ∧
    (snat_rules_hash (fun l => (l.length : Int))
        [snatRuleA, ⟨"snat", "", "", "", badSnatLine, false⟩] =
      snat_rules_hash (fun l => (l.length : Int))
        [⟨"snat", "", "", "", badSnatLine, false⟩, snatRuleA] ∧
     lrp_rules_hash (fun l => (l.length : Int)) [lrpRuleA] =
      lrp_rules_hash (fun l => (l.length : Int)) [lrpRuleA]) :=
  ⟨by decide, by decide,
    fingerprint_perm_invariant (fun l => (l.length : Int)) _ _ _ _ (by decide) (by decide)⟩

/-- Claim C9: the stability assessment is exactly determined by the number of
change events: 0 events is `stable` with high confidence, 1–2 events is
`mostly_stable` with medium confidence, 3 or more is `unstable` with high
confidence. -/
theorem stability_assessment_by_event_count (snapshots : List RuleSnapshot) :
    ((analyze_rule_changes snapshots).total_change_events = 0 →
      assess_rule_stability (analyze_rule_changes snapshots) =
        ⟨"stable", "No rule changes detected during monitoring period", "high"⟩) ∧
    (1 ≤ (analyze_rule_changes snapshots).total_change_events →
      (analyze_rule_changes snapshots).total_change_events ≤ 2 →
      assess_rule_stability (analyze_rule_changes snapshots) =
        ⟨"mostly_stable",
          "Minor changes detected (" ++
            toString (analyze_rule_changes snapshots).total_change_events ++ " events)",
          "medium"⟩) ∧
    (3 ≤ (analyze_rule_changes snapshots).total_change_events →
      assess_rule_stability (analyze_rule_changes snapshots) =
        ⟨"unstable",
          "Frequent rule changes detected (" ++
            toString (analyze_rule_changes snapshots).total_change_events ++ " events)",
          "high"⟩) := by
  have hdet := changes_detected_iff_events_pos snapshots
  refine ⟨fun h0 => ?_, fun h1 h2 => ?_, fun h3 => ?_⟩
  · have hb : (analyze_rule_changes snapshots).changes_detected = false := by
      rcases Bool.eq_false_or_eq_true (analyze_rule_changes snapshots).changes_detected with
        hb | hb
      · exact absurd (hdet.mp hb) (by omega)
      · exact hb
    simp [assess_rule_stability, hb]
  · have hb : (analyze_rule_changes snapshots).changes_detected = true := hdet.mpr (by omega)
    simp [assess_rule_stability, hb, h2]
  · have hb : (analyze_rule_changes snapshots).changes_detected = true := hdet.mpr (by omega)
    have hgt : ¬ (analyze_rule_changes snapshots).total_change_events ≤ 2 := by omega
    simp [assess_rule_stability, hb, hgt]

/-- Claim C2, counterexample: with both rule sets empty the returned report
does contain the numeric score `0.0` (the initialized `consistency_score`
field), and the correlation label is `unknown`, not the words `no data` —
the claim that a numeric score of 0 is never reported in this case is false
on the code. -/
theorem consistency_empty_reports_zero_score :
    (check_rule_consistency [] []).consistency_score = 0 ∧
    (check_rule_consistency [] []).snat_lrp_correlation = "unknown" ∧
    (check_rule_consistency [] []).snat_lrp_correlation ≠ "no data" :=
  ⟨by decide, by decide, by decide⟩

/-- Claim C2, amended: when either derived set is empty no correlation is
computed — the correlation label keeps its initial `unknown` value and no
issue is appended — but the `consistency_score` field keeps its initialized
value `0.0` rather than being marked unavailable; emptiness is
distinguishable only through the `unknown` label, not through the score
field. -/
theorem consistency_empty_no_classification (snat_rules : List SnatRule)
    (lrp_rules : List LrpRule)
    (h : snatExternalIPs snat_rules = ∅ ∨ lrpIPReferences lrp_rules = ∅) :
    (check_rule_consistency snat_rules lrp_rules).snat_lrp_correlation = "unknown" ∧
    (check_rule_consistency snat_rules lrp_rules).consistency_score = 0 ∧
    (check_rule_consistency snat_rules lrp_rules).issues_found = [] := by
  have hcond : ¬ ((snatExternalIPs snat_rules).Nonempty ∧ (lrpIPReferences lrp_rules).Nonempty) := by
    rintro ⟨h1, h2⟩
    rcases h with h | h
    · rw [h] at h1; exact absurd h1 Finset.not_nonempty_empty
    · rw [h] at h2; exact absurd h2 Finset.not_nonempty_empty
  simp only [check_rule_consistency]
  rw [if_neg hcond]
  exact ⟨rfl, rfl, rfl⟩

/-- Claim C2, amended, witness at two empty rule lists. -/
theorem consistency_empty_no_classification_witness :
    (snatExternalIPs [] = ∅ ∨ lrpIPReferences [] = ∅) ∧
    ((check_rule_consistency [] []).snat_lrp_correlation = "unknown" ∧
     (check_rule_consistency [] []).consistency_score = 0 ∧
     (check_rule_consistency [] []).issues_found = []) :=
  ⟨by decide, consistency_empty_no_classification [] [] (by decide)⟩

/-- Claim C4: for non-empty SNAT external-IP and LRP IP-reference sets the
score is `|correlated| / |snatExternal|`, classified `good` above 0.8,
`moderate` above 0.5, else `poor` with a non-empty issue string appended. -/
theorem consistency_score_formula_and_classification (snat_rules : List SnatRule)
    (lrp_rules : List LrpRule) (h1 : (snatExternalIPs snat_rules).Nonempty)
    (h2 : (lrpIPReferences lrp_rules).Nonempty) :
    (check_rule_consistency snat_rules lrp_rules).consistency_score =
      ((snatExternalIPs snat_rules ∩ lrpIPReferences lrp_rules).card : ℚ) /
        ((snatExternalIPs snat_rules).card : ℚ) ∧
    ((check_rule_consistency snat_rules lrp_rules).consistency_score > 8/10 →
      (check_rule_consistency snat_rules lrp_rules).snat_lrp_correlation = "good") ∧
    ((check_rule_consistency snat_rules lrp_rules).consistency_score ≤ 8/10 →
      (check_rule_consistency snat_rules lrp_rules).consistency_score > 5/10 →
      (check_rule_consistency snat_rules lrp_rules).snat_lrp_correlation = "moderate") ∧
    ((check_rule_consistency snat_rules lrp_rules).consistency_score ≤ 5/10 →
      (check_rule_consistency snat_rules lrp_rules).snat_lrp_correlation = "poor" ∧
      (check_rule_consistency snat_rules lrp_rules).issues_found =
        ["Low correlation between SNAT and LRP rules"] ∧
      ∃ s ∈ (check_rule_consistency snat_rules lrp_rules).issues_found, s ≠ "") := by
  simp only [check_rule_consistency]
  rw [if_pos ⟨h1, h2⟩]
  split_ifs with hA hB
  · exact ⟨rfl, fun _ => rfl, fun hle _ => absurd hA (not_lt.mpr hle),
      fun hle => absurd hA (not_lt.mpr (le_trans hle (by norm_num)))⟩
  · exact ⟨rfl, fun hgt => absurd hgt hA, fun _ _ => rfl,
      fun hle => absurd hB (not_lt.mpr hle)⟩
  · refine ⟨rfl, fun hgt => absurd hgt hA, fun _ hgt => absurd hgt hB,
      fun _ => ⟨rfl, rfl, ?_⟩⟩
    exact ⟨"Low correlation between SNAT and LRP rules", by simp, by simp⟩

/-- Claim C4, witness: one SNAT rule whose external IP also occurs in the
LRP rule's action text — the score is `1/1` and the classification `good`. -/
theorem consistency_score_formula_and_classification_witness :
    (snatExternalIPs [snatRuleA]).Nonempty ∧ (lrpIPReferences [lrpRuleA]).Nonempty ∧
    ((check_rule_consistency [snatRuleA] [lrpRuleA]).consistency_score =
      ((snatExternalIPs [snatRuleA] ∩ lrpIPReferences [lrpRuleA]).card : ℚ) /
        ((snatExternalIPs [snatRuleA]).card : ℚ) ∧
    ((check_rule_consistency [snatRuleA] [lrpRuleA]).consistency_score > 8/10 →
      (check_rule_consistency [snatRuleA] [lrpRuleA]).snat_lrp_correlation = "good") ∧
    ((check_rule_consistency [snatRuleA] [lrpRuleA]).consistency_score ≤ 8/10 →
      (check_rule_consistency [snatRuleA] [lrpRuleA]).consistency_score > 5/10 →
      (check_rule_consistency [snatRuleA] [lrpRuleA]).snat_lrp_correlation = "moderate") ∧
    ((check_rule_consistency [snatRuleA] [lrpRuleA]).consistency_score ≤ 5/10 →
      (check_rule_consistency [snatRuleA] [lrpRuleA]).snat_lrp_correlation = "poor" ∧
      (check_rule_consistency [snatRuleA] [lrpRuleA]).issues_found =
        ["Low correlation between SNAT and LRP rules"] ∧
      ∃ s ∈ (check_rule_consistency [snatRuleA] [lrpRuleA]).issues_found, s ≠ "")) :=
  ⟨by decide, by decide,
    consistency_score_formula_and_classification [snatRuleA] [lrpRuleA] (by decide) (by decide)⟩

/-- Claim C5, counterexample: the spec computes the percent change whenever
`firstHalfAvg ≠ 0`, but the source guards with `first_half_avg > 0`; on the
series `[-1, 1]` the first-half average is `-1 ≠ 0`, the spec's formula gives
`-200% < -10%` (hence `decreasing` as specified), yet the code returns
`stable`. -/
theorem simple_trend_negative_avg_counterexample :
    simple_trend [-1, 1] = "stable" ∧
    simple_trend_as_specified [-1, 1] = "decreasing" ∧
    first_half_avg [-1, 1] ≠ 0 ∧
    (second_half_avg [-1, 1] - first_half_avg [-1, 1]) / first_half_avg [-1, 1] * 100 < -10 := by
  refine ⟨?_, ?_, ?_, ?_⟩ <;>
    norm_num [simple_trend, simple_trend_as_specified, diff_percent, first_half_avg,
      second_half_avg]

/-- Claim C5, amended: as the claim states, except that the percent change is
computed only when the first-half average is strictly positive
(`firstHalfAvg > 0`); a zero or negative first-half average is treated as 0%
change (hence `stable`), not an error. -/
theorem simple_trend_characterization (values : List ℚ) :
    (values.length < 2 → simple_trend values = "insufficient_data") ∧
    (2 ≤ values.length → 0 < first_half_avg values →
      ((second_half_avg values - first_half_avg values) / first_half_avg values * 100 > 10 →
        simple_trend values = "increasing") ∧
      ((second_half_avg values - first_half_avg values) / first_half_avg values * 100 < -10 →
        simple_trend values = "decreasing") ∧
      (-10 ≤ (second_half_avg values - first_half_avg values) / first_half_avg values * 100 →
       (second_half_avg values - first_half_avg values) / first_half_avg values * 100 ≤ 10 →
        simple_trend values = "stable")) ∧
    (2 ≤ values.length → first_half_avg values ≤ 0 → simple_trend values = "stable") := by
  refine ⟨fun hlt => ?_, fun hge hfa => ?_, fun hge hfa => ?_⟩
  · unfold simple_trend
    rw [if_pos hlt]
  · have hnlt : ¬ values.length < 2 := by omega
    have hd : diff_percent values =
        (second_half_avg values - first_half_avg values) / first_half_avg values * 100 := by
      unfold diff_percent
      rw [if_pos hfa]
    refine ⟨fun hinc => ?_, fun hdec => ?_, fun hs1 hs2 => ?_⟩
    · unfold simple_trend
      rw [if_neg hnlt, hd, if_pos hinc]
    · unfold simple_trend
      rw [if_neg hnlt, hd, if_neg (by linarith), if_pos hdec]
    · unfold simple_trend
      rw [if_neg hnlt, hd, if_neg (by linarith), if_neg (by linarith)]
  · have hnlt : ¬ values.length < 2 := by omega
    have hd : diff_percent values = 0 := by
      unfold diff_percent
      rw [if_neg (not_lt.mpr hfa)]
    unfold simple_trend
    rw [if_neg hnlt, hd, if_neg (by norm_num), if_neg (by norm_num)]

/-- Claim C5, amended, witness: the spec's own example series `[10, 20]`
classifies as `increasing` through the amended characterization. -/
theorem simple_trend_characterization_witness : simple_trend [10, 20] = "increasing" :=
  ((simple_trend_characterization [10, 20]).2.1 (by norm_num)
      (by norm_num [first_half_avg])).1
    (by norm_num [first_half_avg, second_half_avg])

/-- Claim C6: a line whose whitespace tokens are a case-insensitive `snat`
followed by at least three fields parses to a fully parsed record carrying
those three fields verbatim; a line containing `snat` that does not match
the token pattern still yields an attempted record with the raw text
unchanged; and every stdout line containing `snat` (case-insensitively,
after stripping) contributes its record to the output list — it is never
dropped. -/
theorem snat_parse_total (line : String) :
    (∀ t0 eip lip port rest, pySplit (pyStrip line) = t0 :: eip :: lip :: port :: rest →
      strLower t0 = "snat" →
      parse_snat_rule line = ⟨"snat", eip, lip, port, line, true⟩) ∧
    (containsSub "snat".data (strLower line).data = true →
      ¬ (4 ≤ (pySplit (pyStrip line)).length ∧
          strLower ((pySplit (pyStrip line)).getD 0 "") = "snat") →
      parse_snat_rule line = ⟨"snat", "", "", "", line, false⟩) ∧
    (∀ stdout, line ∈ splitLines stdout →
      containsSub "snat".data (strLower (pyStrip line)).data = true →
      parse_snat_rule (pyStrip line) ∈ parse_snat_output stdout) := by
  refine ⟨fun t0 eip lip port rest hsplit hlow => ?_, fun _ hnot => ?_,
    fun stdout hmem hcont => ?_⟩
  · have hc : 4 ≤ (pySplit (pyStrip line)).length ∧
        strLower ((pySplit (pyStrip line)).getD 0 "") = "snat" := by
      rw [hsplit]
      refine ⟨by simp, ?_⟩
      simpa using hlow
    simp only [parse_snat_rule]
    rw [if_pos hc, hsplit]
    rfl
  · simp only [parse_snat_rule]
    rw [if_neg hnot]
  · simp only [parse_snat_output]
    refine List.mem_filterMap.mpr ⟨line, hmem, ?_⟩
    simp [hcont]

/-- Claim C6, witness: a well-formed line, a malformed `snat` line, and a
two-line stdout in which the malformed line is still included. -/
theorem snat_parse_total_witness :
    parse_snat_rule goodSnatLine =
      ⟨"snat", "10.0.1.5", "10.128.0.10", "k8s-node1", goodSnatLine, true⟩ ∧
    parse_snat_rule badSnatLine = ⟨"snat", "", "", "", badSnatLine, false⟩ ∧
    parse_snat_rule (pyStrip badSnatLine) ∈
      parse_snat_output (goodSnatLine ++ "\n" ++ badSnatLine) :=
  ⟨(snat_parse_total goodSnatLine).1 "snat" "10.0.1.5" "10.128.0.10" "k8s-node1" []
      (by decide) (by decide),
    (snat_parse_total badSnatLine).2.1 (by decide) (by decide),
    (snat_parse_total badSnatLine).2.2 (goodSnatLine ++ "\n" ++ badSnatLine)
      (by decide) (by decide)⟩

/-- Claim C7: with an available EgressIP context the validator reports
`missing = assigned − snatExternal` and `unexpected = snatExternal −
assigned` as exact, explicit sets. -/
theorem validation_exact_set_differences (snat_rules : List SnatRule)
    (lrp_rules : List LrpRule) (ctx : EgressIPContext) (h : ctx.available = true) :
    (∀ ip, ip ∈ (validate_rules_against_egressips snat_rules lrp_rules ctx).missing_snat_rules ↔
      (ip ∈ ctx.total_assigned_ips.toFinset ∧ ip ∉ snatExternalIPs snat_rules)) ∧
    (∀ ip,
      ip ∈ (validate_rules_against_egressips snat_rules lrp_rules ctx).unexpected_snat_rules ↔
      (ip ∈ snatExternalIPs snat_rules ∧ ip ∉ ctx.total_assigned_ips.toFinset)) := by
  constructor <;> intro ip <;>
    simp [validate_rules_against_egressips, h, Finset.mem_sdiff]

/-- Claim C7, witness: assigned `{A, B, C}` against SNAT-external `{B, C, D}`
gives missing `{A}` and unexpected `{D}`. -/
theorem validation_exact_set_differences_witness :
    ctxABC.available = true ∧
    (validate_rules_against_egressips snatRulesBCD [] ctxABC).missing_snat_rules =
      {"10.0.0.1"} ∧
    (validate_rules_against_egressips snatRulesBCD [] ctxABC).unexpected_snat_rules =
      {"10.0.0.4"} ∧
    ((∀ ip, ip ∈ (validate_rules_against_egressips snatRulesBCD [] ctxABC).missing_snat_rules ↔
      (ip ∈ ctxABC.total_assigned_ips.toFinset ∧ ip ∉ snatExternalIPs snatRulesBCD)) ∧
     (∀ ip,
      ip ∈ (validate_rules_against_egressips snatRulesBCD [] ctxABC).unexpected_snat_rules ↔
      (ip ∈ snatExternalIPs snatRulesBCD ∧ ip ∉ ctxABC.total_assigned_ips.toFinset))) :=
  ⟨by decide, by decide, by decide,
    validation_exact_set_differences snatRulesBCD [] ctxABC (by decide)⟩

/-- Claim C9, witness: a three-identical-snapshot sequence has zero change
events and assesses as `stable` with high confidence (and an empty change
list). -/
theorem stability_assessment_by_event_count_witness :
    (analyze_rule_changes [⟨1, 2, 3, 4⟩, ⟨1, 2, 3, 4⟩, ⟨1, 2, 3, 4⟩]).total_change_events = 0 ∧
    (analyze_rule_changes [⟨1, 2, 3, 4⟩, ⟨1, 2, 3, 4⟩, ⟨1, 2, 3, 4⟩]).changes = [] ∧
    assess_rule_stability (analyze_rule_changes [⟨1, 2, 3, 4⟩, ⟨1, 2, 3, 4⟩, ⟨1, 2, 3, 4⟩]) =
      ⟨"stable", "No rule changes detected during monitoring period", "high"⟩ :=
  ⟨by decide, by decide,
    (stability_assessment_by_event_count [⟨1, 2, 3, 4⟩, ⟨1, 2, 3, 4⟩, ⟨1, 2, 3, 4⟩]).1
      (by decide)⟩
